import Mathlib

/-!
Shallow embedding of the session/query state machine of
`frontend/src/app/insurance/page.tsx` (the `MedicalPage` component).

The React component state (`useState` hooks) becomes a `SessionState`
record.  Each event handler (`handleSubmit`, `clearChat`, `toggleVoice`,
the hydration `useEffect`, and the speech-recognition callbacks) becomes a
pure function on `SessionState`, parameterised by the outcome of the
asynchronous operation it awaits.  Side effects other than state updates
(HTTP requests, `console.error`, `alert`) are returned as an explicit
`Effect` list.
-/

namespace Atlas

/-- Message role: the source's `type: "human" | "ai"` in `ChatMessage`. -/
inductive Role where
  | human
  | ai
deriving DecidableEq, Repr

/-- `ChatMessage` from `page.tsx`: `{ type: "human" | "ai"; content: string }`. -/
structure ChatMessage where
  type : Role
  content : String
deriving DecidableEq, Repr

/-- Shape of `APIResponse.latest_response`:
`{ answer, thoughts, validation, source }`, all strings. -/
structure AnnotatedAnswer where
  answer : String
  thoughts : String
  validation : String
  source : String
deriving DecidableEq, Repr

/-- Parsed JSON body of a hydrate or submit response.  The TypeScript
declaration has `history: ChatMessage[]` and `latest_response?:`, but the
handlers guard both fields with truthiness checks (`data.history || []`,
`if (data.history)`, `if (data.latest_response)`), so at runtime either
field may be absent; both are modelled as `Option`.  A present array is
truthy in JavaScript even when empty, so `some []` counts as present. -/
structure APIResponse where
  history : Option (List ChatMessage)
  latest_response : Option AnnotatedAnswer
deriving DecidableEq, Repr

/-- Attachment kind: the source's `type: "image" | "doc"` in `attachedFile`. -/
inductive AttachKind where
  | image
  | doc
deriving DecidableEq, Repr

/-- Opaque stand-in for a DOM `File` object; only its identity matters. -/
structure FileRef where
  name : String
deriving DecidableEq, Repr

/-- The `attachedFile` slot: `{ file: File; type: "image" | "doc" }`. -/
structure Attachment where
  file : FileRef
  type : AttachKind
deriving DecidableEq, Repr

/-- The component's `useState` hooks:
`history`, `latestResponse`, `query`, `isLoading`, `attachedFile`,
`isListening`, `lang`.  (`showUploadMenu` is pure presentation and carries
no session semantics, so it is omitted.) -/
structure SessionState where
  history : List ChatMessage
  latestResponse : Option AnnotatedAnswer
  query : String
  isLoading : Bool
  attachedFile : Option Attachment
  isListening : Bool
  lang : String
deriving DecidableEq, Repr

/-- Initial hook values: `[]`, `undefined`, `""`, `false`, `null`, `false`,
`"en-US"`. -/
def initialState : SessionState :=
  { history := []
  , latestResponse := none
  , query := ""
  , isLoading := false
  , attachedFile := none
  , isListening := false
  , lang := "en-US" }

/-- The multipart `FormData` built by `handleSubmit`: a `query` field always,
and at most one of `image` / `document`. -/
structure FormPayload where
  query : String
  image : Option FileRef
  document : Option FileRef
deriving DecidableEq, Repr

/-- The three HTTP operations the page performs. -/
inductive Request where
  | hydrate
  | submitTurn (payload : FormPayload)
  | clearSession
deriving DecidableEq, Repr

/-- Observable side effects other than state updates. -/
inductive Effect where
  | request (r : Request)
  | consoleError (msg : String)
  | alertMsg (msg : String)
deriving DecidableEq, Repr

/-- Recognises a submit-turn request among effects. -/
def isSubmitRequest : Effect → Bool
  | Effect.request (Request.submitTurn _) => true
  | _ => false

/-- `FormData` construction in `handleSubmit`:
`formData.append("query", query)`; then, if a file is attached,
`formData.append("image", file)` when its type is `"image"`, otherwise
`formData.append("document", file)`. -/
def buildFormData (query : String) (attachedFile : Option Attachment) : FormPayload :=
  match attachedFile with
  | none => { query := query, image := none, document := none }
  | some a =>
    if a.type = AttachKind.image then
      { query := query, image := some a.file, document := none }
    else
      { query := query, image := none, document := some a.file }

/-- The synchronous prefix of `handleSubmit`, up to (and including) issuing
the POST: the guard `if (!query && !attachedFile) return;` (a JS string is
falsy exactly when empty), then `setIsLoading(true)`, the optimistic
append `setHistory(prev => [...prev, { type: "human", content: query }])`,
and the `FormData` build.  Returns `none` when the guard rejects (no
request is sent and no state is touched), otherwise the state as it stands
while the request is in flight, together with the request payload. -/
def submitBegin (s : SessionState) : Option (SessionState × FormPayload) :=
  if s.query = "" ∧ s.attachedFile = none then
    none
  else
    some
      ({ s with
          isLoading := true
        , history := s.history ++ [{ type := Role.human, content := s.query }] }
      , buildFormData s.query s.attachedFile)

/-- The `try` block of `handleSubmit` after a response arrived and parsed:
`if (data.history) setHistory(data.history)`,
`if (data.latest_response) setLatestResponse(data.latest_response)`,
`setQuery("")`, `setAttachedFile(null)`, then `finally setIsLoading(false)`. -/
def submitSuccess (s : SessionState) (data : APIResponse) : SessionState :=
  let s1 := match data.history with
    | some h => { s with history := h }
    | none => s
  let s2 := match data.latest_response with
    | some r => { s1 with latestResponse := some r }
    | none => s1
  { s2 with query := "", attachedFile := none, isLoading := false }

/-- The `catch` block of `handleSubmit` (only `console.error`) followed by
`finally setIsLoading(false)`: no rollback of the optimistic append, no
other state change. -/
def submitFailure (s : SessionState) : SessionState :=
  { s with isLoading := false }

/-- Outcome of the awaited `fetch` + `res.json()` in `handleSubmit`:
either a parsed response, or any network/parse error (the `catch` arm). -/
inductive SubmitOutcome where
  | success (data : APIResponse)
  | failure
deriving DecidableEq, Repr

/-- Whole-transaction view of `handleSubmit`: run the synchronous prefix,
then resolve the network call with the given outcome.  The effect list
records the POST (when issued) and the `console.error` on failure. -/
def handleSubmit (s : SessionState) (o : SubmitOutcome) : SessionState × List Effect :=
  match submitBegin s with
  | none => (s, [])
  | some (s1, payload) =>
    match o with
    | SubmitOutcome.success data =>
        (submitSuccess s1 data, [Effect.request (Request.submitTurn payload)])
    | SubmitOutcome.failure =>
        (submitFailure s1
        , [Effect.request (Request.submitTurn payload)
          , Effect.consoleError "Error submitting query:"])

/-- Outcome of the awaited `fetch` in `clearChat`: the call resolved with
some (ignored) body, or it threw. -/
inductive ClearOutcome where
  | resolved (body : String)
  | threw
deriving DecidableEq, Repr

/-- `clearChat`: `await fetch(".../clear", { method: "POST" })`, then
`setHistory([])`, `setLatestResponse(undefined)`.  The response body is
never read, so the resets happen for every resolved call regardless of the
body; if the call throws, the `await` rethrows and the resets are skipped
(the function has no `catch`). -/
def clearChat (s : SessionState) : ClearOutcome → SessionState × List Effect
  | ClearOutcome.resolved _ =>
      ({ s with history := [], latestResponse := none }
      , [Effect.request Request.clearSession])
  | ClearOutcome.threw =>
      (s, [Effect.request Request.clearSession])

/-- Outcome of the hydration `fetch` + `res.json()` in the mount effect. -/
inductive HydrateOutcome where
  | success (data : APIResponse)
  | failure
deriving DecidableEq, Repr

/-- The `then` arm of the mount effect:
`setHistory(data.history || [])` (a present array, even empty, is truthy,
so `||` yields it; an absent field yields `[]`), and
`setLatestResponse(data.latest_response)` unconditionally. -/
def hydrateState (s : SessionState) (data : APIResponse) : SessionState :=
  { s with
      history := data.history.getD []
    , latestResponse := data.latest_response }

/-- The mount `useEffect`: issues the GET from the initial hook state;
on success applies `hydrateState`; on error only logs
`console.error("Failed to load history:", err)`. -/
def loadHistory : HydrateOutcome → SessionState × List Effect
  | HydrateOutcome.success data =>
      (hydrateState initialState data, [Effect.request Request.hydrate])
  | HydrateOutcome.failure =>
      (initialState
      , [Effect.request Request.hydrate
        , Effect.consoleError "Failed to load history:"])

/-- `toggleVoice`, parameterised by whether the host exposes
`SpeechRecognition`/`webkitSpeechRecognition`.  When the capability is
absent: `alert("Browser does not support speech recognition.")` and
return, with no state change.  When present: if already listening,
`setIsListening(false)` and return; otherwise a recognizer configured
from the current `lang` is started (its callbacks are `handleRecEvent`). -/
def toggleVoice (speechRecognitionAvailable : Bool) (s : SessionState) :
    SessionState × List Effect :=
  if !speechRecognitionAvailable then
    (s, [Effect.alertMsg "Browser does not support speech recognition."])
  else if s.isListening then
    ({ s with isListening := false }, [])
  else
    (s, [])

/-- Callback events of one recognizer instance created by `toggleVoice`. -/
inductive RecEvent where
  | onstart
  | onresult (transcript : String)
  | onend
deriving DecidableEq, Repr

/-- The three handlers installed on the recognizer:
`onstart = () => setIsListening(true)`,
`onend = () => setIsListening(false)`,
`onresult = (event) => setQuery(event.results[0][0].transcript)`. -/
def handleRecEvent (s : SessionState) : RecEvent → SessionState
  | RecEvent.onstart => { s with isListening := true }
  | RecEvent.onend => { s with isListening := false }
  | RecEvent.onresult t => { s with query := t }

/-- Modelled from the spec: the platform speech engine is an external
collaborator not in the repository.  With the configuration the code sets
(`interimResults = false`, `maxAlternatives = 1`, default non-continuous
mode), a listening session that ends in successful recognition delivers
`onstart`, exactly one final `onresult`, then `onend`. -/
def successfulSessionEvents (transcript : String) : List RecEvent :=
  [RecEvent.onstart, RecEvent.onresult transcript, RecEvent.onend]

/-- Folds a recognizer's callback sequence over the session state. -/
def runListeningSession (s : SessionState) (evs : List RecEvent) : SessionState :=
  evs.foldl handleRecEvent s

/-- Counts `onresult` (transcribed-text) events in a callback sequence. -/
def countResultEvents (evs : List RecEvent) : Nat :=
  evs.countP fun e => match e with
    | RecEvent.onresult _ => true
    | _ => false

/-!
Event-driven view of the page, for the single-flight property.  The
browser delivers user-input events and asynchronous completions to the
single JS thread one at a time; `stepUI` is the handler dispatch.  The
ghost counter `inFlight` counts outstanding submit requests (issued and
not yet resolved); it is bookkeeping, not component state.
-/

/-- Component state plus the count of in-flight submit requests. -/
structure UIState where
  sess : SessionState
  inFlight : Nat
deriving DecidableEq, Repr

/-- State at mount, before any event. -/
def initUI : UIState :=
  { sess := initialState, inFlight := 0 }

/-- Events the page reacts to.  `submitClick` is the submit affordance:
the submit button carries `disabled={isLoading}`, and implicit form
submission (Enter in the text field) is likewise inert while the form's
default button is disabled, so activation is only delivered when
`isLoading` is false.  `submitResolve` is the settling of the awaited
`fetch` + `res.json()` of an in-flight submission.  `setQueryInput` is the
text field's `onChange`; the attach events are the two hidden file inputs;
`voiceResult` is a recognizer `onresult`; `clearResolve` is the resolved
`clearChat` fetch. -/
inductive UIEvent where
  | setQueryInput (text : String)
  | attachImageFile (f : FileRef)
  | attachDocFile (f : FileRef)
  | submitClick
  | submitResolve (o : SubmitOutcome)
  | voiceResult (transcript : String)
  | clearResolve
deriving DecidableEq, Repr

/-- One event-handler dispatch on the single JS thread. -/
def stepUI (u : UIState) : UIEvent → UIState
  | UIEvent.setQueryInput t =>
      { u with sess := { u.sess with query := t } }
  | UIEvent.attachImageFile f =>
      { u with sess :=
          { u.sess with attachedFile := some { file := f, type := AttachKind.image } } }
  | UIEvent.attachDocFile f =>
      { u with sess :=
          { u.sess with attachedFile := some { file := f, type := AttachKind.doc } } }
  | UIEvent.submitClick =>
      if u.sess.isLoading then u
      else
        match submitBegin u.sess with
        | none => u
        | some (s1, _) => { sess := s1, inFlight := u.inFlight + 1 }
  | UIEvent.submitResolve o =>
      if u.inFlight = 0 then u
      else
        match o with
        | SubmitOutcome.success data =>
            { sess := submitSuccess u.sess data, inFlight := u.inFlight - 1 }
        | SubmitOutcome.failure =>
            { sess := submitFailure u.sess, inFlight := u.inFlight - 1 }
  | UIEvent.voiceResult t =>
      { u with sess := { u.sess with query := t } }
  | UIEvent.clearResolve =>
      { u with sess := { u.sess with history := [], latestResponse := none } }

/-- Runs an event trace from the mount state. -/
def runUI (es : List UIEvent) : UIState :=
  es.foldl stepUI initUI

/-- At most one submission is in flight, and whenever the spinner is off
there is none. -/
def SingleFlight (u : UIState) : Prop :=
  u.inFlight ≤ 1 ∧ (u.sess.isLoading = false → u.inFlight = 0)

/-- Pre-submission state used to exhibit the `latest_response` edge case:
non-empty query, no attachment, and a previously confirmed answer. -/
def cexState : SessionState :=
  { initialState with
      query := "What is diabetes?"
    , latestResponse :=
        some { answer := "A previous answer.", thoughts := "", validation := "", source := "" } }

/-- A successful submit response that carries a history but omits
`latest_response`. -/
def cexResponse : APIResponse :=
  { history := some
      [ { type := Role.human, content := "What is diabetes?" }
      , { type := Role.ai, content := "An answer." } ]
  , latest_response := none }

/-!
Theorems.
-/

/-- C4: a submission request is sent exactly when the query text is
non-empty or an attachment is present; for a submission with empty text
and no attachment, no request is sent and the session state (history,
latest, attachment, query — indeed the whole state) is unchanged, with no
effects at all. -/
theorem submit_guard_no_request (s : SessionState) (o : SubmitOutcome) :
    ((handleSubmit s o).2.any isSubmitRequest = true ↔
      ¬(s.query = "" ∧ s.attachedFile = none)) ∧
    (s.query = "" ∧ s.attachedFile = none → handleSubmit s o = (s, [])) := by
  by_cases h : s.query = "" ∧ s.attachedFile = none
  · simp [handleSubmit, submitBegin, h]
  · cases o <;> simp [handleSubmit, submitBegin, h, isSubmitRequest]

/-- C4 witness: at the mount state (empty query, no attachment) a submit
attempt is a no-op with no effects. -/
theorem submit_guard_no_request_witness :
    handleSubmit initialState SubmitOutcome.failure = (initialState, []) :=
  (submit_guard_no_request initialState SubmitOutcome.failure).2 ⟨rfl, rfl⟩

/-- C3: if the network call fails after the optimistic append, there is no
rollback: the optimistic Human entry remains appended to the pre-submission
history (with no Assistant entry added), and `latestResponse` keeps its
pre-submission value. -/
theorem submit_failure_no_rollback (s : SessionState)
    (h : ¬(s.query = "" ∧ s.attachedFile = none)) :
    (handleSubmit s SubmitOutcome.failure).1 =
      { s with
          history := s.history ++ [{ type := Role.human, content := s.query }]
        , isLoading := false } ∧
    (handleSubmit s SubmitOutcome.failure).1.latestResponse = s.latestResponse := by
  simp [handleSubmit, submitBegin, h, submitFailure]

/-- C3 witness: a failed submission of `"What is diabetes?"` from the
mount state leaves exactly the stranded Human entry and no latest answer. -/
theorem submit_failure_no_rollback_witness :
    (handleSubmit { initialState with query := "What is diabetes?" }
        SubmitOutcome.failure).1 =
      { initialState with
          query := "What is diabetes?"
        , history := [{ type := Role.human, content := "What is diabetes?" }] } :=
  (submit_failure_no_rollback { initialState with query := "What is diabetes?" }
    (by decide)).1

/-- C5: a resolved `clearChat` always yields empty history and absent
latest — the response body is never read — and issues the clear request;
instantiated at a state with empty history this is the idempotence case. -/
theorem clearChat_resolved_empty (s : SessionState) (body : String) :
    clearChat s (ClearOutcome.resolved body) =
      ({ s with history := [], latestResponse := none }
      , [Effect.request Request.clearSession]) := rfl

/-- C6: hydration with a server response `{history: [m1, m2],
latest_response: r}` makes the store's history exactly `[m1, m2]` and
latest exactly `r`; a failed hydrate leaves the state at its empty mount
value and only logs (a `console.error`, no alert). -/
theorem hydrate_exact_failure_silent (m1 m2 : ChatMessage) (r : Option AnnotatedAnswer) :
    (loadHistory (HydrateOutcome.success
        { history := some [m1, m2], latest_response := r })).1.history = [m1, m2] ∧
    (loadHistory (HydrateOutcome.success
        { history := some [m1, m2], latest_response := r })).1.latestResponse = r ∧
    (loadHistory HydrateOutcome.failure).1 = initialState ∧
    initialState.history = [] ∧ initialState.latestResponse = none ∧
    (loadHistory HydrateOutcome.failure).2 =
      [Effect.request Request.hydrate, Effect.consoleError "Failed to load history:"] :=
  ⟨rfl, rfl, rfl, rfl, rfl, rfl⟩

/-- C8: when the host exposes no speech-recognition capability, a
start-listening request produces only the blocking alert and leaves the
state unchanged, so `isListening` stays as it was (false in the idle
state). -/
theorem speech_capability_unavailable (s : SessionState) :
    toggleVoice false s =
      (s, [Effect.alertMsg "Browser does not support speech recognition."]) ∧
    (toggleVoice false s).1.isListening = s.isListening :=
  ⟨rfl, rfl⟩

/-- C9: a completed listening session ending in successful recognition
carries exactly one transcribed-text event, and running the installed
handlers over it leaves the query equal to the transcript — a wholesale
overwrite of whatever was typed, with listening back off; the `onresult`
handler by itself replaces the query rather than appending. -/
theorem transcript_exclusive_overwrite (s : SessionState) (t : String) :
    runListeningSession s (successfulSessionEvents t) =
      { s with query := t, isListening := false } ∧
    countResultEvents (successfulSessionEvents t) = 1 ∧
    (handleRecEvent s (RecEvent.onresult t)).query = t :=
  ⟨rfl, rfl, rfl⟩

/-- C10: on submit failure the query text and the pending attachment are
left exactly as they were; after a successful (received and parsed)
response the query is reset to empty and the attachment cleared. -/
theorem failure_keeps_query_attachment (s : SessionState) (data : APIResponse) :
    ((handleSubmit s SubmitOutcome.failure).1.query = s.query ∧
     (handleSubmit s SubmitOutcome.failure).1.attachedFile = s.attachedFile) ∧
    ((handleSubmit s (SubmitOutcome.success data)).1.query = "" ∧
     (handleSubmit s (SubmitOutcome.success data)).1.attachedFile = none) := by
  by_cases h : s.query = "" ∧ s.attachedFile = none
  · simp [handleSubmit, submitBegin, h, h.1, h.2]
  · simp [handleSubmit, submitBegin, h, submitFailure, submitSuccess]

/-- C1 counterexample: a submission with non-empty text and no attachment,
answered successfully with a server history of length two but no
`latest_response` field, ends with `latestResponse` still equal to its
pre-submission value — not equal to the server's (absent)
`latest_response`, because the code guards the update with
`if (data.latest_response)`. -/
theorem reconcile_counterexample :
    cexState.query ≠ "" ∧ cexState.attachedFile = none ∧
    cexResponse.history.isSome = true ∧
    (handleSubmit cexState (SubmitOutcome.success cexResponse)).1.history =
      [ { type := Role.human, content := "What is diabetes?" }
      , { type := Role.ai, content := "An answer." } ] ∧
    (handleSubmit cexState (SubmitOutcome.success cexResponse)).1.latestResponse ≠
      cexResponse.latest_response ∧
    (handleSubmit cexState (SubmitOutcome.success cexResponse)).1.latestResponse =
      cexState.latestResponse := by
  refine ⟨by decide, rfl, rfl, by decide, by decide, by decide⟩

/-- C1 (amended): for a submission with non-empty text and no attachment,
a Human message is appended immediately (history length grows by exactly
one before the network call resolves); on a successful response carrying a
server history, the final history equals the server's history exactly
(wholesale replacement of the optimistic state), and `latestResponse`
equals the server's `latest_response` whenever the response carries one —
when the response omits it, `latestResponse` keeps its pre-submission
value. -/
theorem reconcile_wholesale (s : SessionState) (data : APIResponse)
    (l : List ChatMessage) (hq : s.query ≠ "") (_ha : s.attachedFile = none)
    (hl : data.history = some l) :
    ((submitBegin s).map fun x => x.1.history) =
      some (s.history ++ [{ type := Role.human, content := s.query }]) ∧
    ((submitBegin s).map fun x => x.1.history.length) =
      some (s.history.length + 1) ∧
    (handleSubmit s (SubmitOutcome.success data)).1.history = l ∧
    (∀ r, data.latest_response = some r →
      (handleSubmit s (SubmitOutcome.success data)).1.latestResponse = some r) ∧
    (data.latest_response = none →
      (handleSubmit s (SubmitOutcome.success data)).1.latestResponse =
        s.latestResponse) := by
  have hg : ¬(s.query = "" ∧ s.attachedFile = none) := fun hc => hq hc.1
  refine ⟨by simp [submitBegin, hg], by simp [submitBegin, hg], ?_, ?_, ?_⟩
  · cases hlr : data.latest_response <;>
      simp [handleSubmit, submitBegin, hg, submitSuccess, hl, hlr]
  · intro r hr
    simp [handleSubmit, submitBegin, hg, submitSuccess, hl, hr]
  · intro hr
    simp [handleSubmit, submitBegin, hg, submitSuccess, hl, hr]

/-- C1 witness: submitting `"What is diabetes?"` from the mount state and
succeeding with a two-entry server history and a `latest_response` yields
exactly the server's history and that answer. -/
theorem reconcile_wholesale_witness :
    (handleSubmit { initialState with query := "What is diabetes?" }
        (SubmitOutcome.success
          { history := some
              [ { type := Role.human, content := "What is diabetes?" }
              , { type := Role.ai, content := "An answer." } ]
          , latest_response :=
              some { answer := "An answer.", thoughts := "", validation := "", source := "" } })).1.history =
      [ { type := Role.human, content := "What is diabetes?" }
      , { type := Role.ai, content := "An answer." } ] ∧
    (handleSubmit { initialState with query := "What is diabetes?" }
        (SubmitOutcome.success
          { history := some
              [ { type := Role.human, content := "What is diabetes?" }
              , { type := Role.ai, content := "An answer." } ]
          , latest_response :=
              some { answer := "An answer.", thoughts := "", validation := "", source := "" } })).1.latestResponse =
      some { answer := "An answer.", thoughts := "", validation := "", source := "" } := by
  have h := reconcile_wholesale { initialState with query := "What is diabetes?" }
    { history := some
        [ { type := Role.human, content := "What is diabetes?" }
        , { type := Role.ai, content := "An answer." } ]
    , latest_response :=
        some { answer := "An answer.", thoughts := "", validation := "", source := "" } }
    [ { type := Role.human, content := "What is diabetes?" }
    , { type := Role.ai, content := "An answer." } ]
    (by decide) rfl rfl
  exact ⟨h.2.2.1, h.2.2.2.1 _ rfl⟩

/-- C7: any submit-turn payload that `handleSubmit` actually sends never
carries both an image field and a document field; with an attachment
present exactly the field matching its kind is included, and with none
present neither is. -/
theorem payload_single_attachment (s : SessionState) (o : SubmitOutcome)
    (p : FormPayload)
    (h : Effect.request (Request.submitTurn p) ∈ (handleSubmit s o).2) :
    ¬(p.image.isSome = true ∧ p.document.isSome = true) ∧
    (s.attachedFile = none → p.image = none ∧ p.document = none) ∧
    (∀ a, s.attachedFile = some a →
      (a.type = AttachKind.image → p.image = some a.file ∧ p.document = none) ∧
      (a.type = AttachKind.doc → p.image = none ∧ p.document = some a.file)) := by
  by_cases hg : s.query = "" ∧ s.attachedFile = none
  · simp [handleSubmit, submitBegin, hg] at h
  · have hp : p = buildFormData s.query s.attachedFile := by
      cases o <;> simp [handleSubmit, submitBegin, hg] at h <;> exact h
    subst hp
    refine ⟨?_, ?_, ?_⟩
    · intro hc
      rcases hatt : s.attachedFile with _ | a
      · simp [buildFormData, hatt] at hc
      · by_cases hk : a.type = AttachKind.image <;>
          simp [buildFormData, hatt, hk] at hc
    · intro hatt
      simp [buildFormData, hatt]
    · intro a hatt
      constructor
      · intro hk
        simp [buildFormData, hatt, hk]
      · intro hk
        have hk' : ¬a.type = AttachKind.image := by
          rw [hk]; intro hc; cases hc
        simp [buildFormData, hatt, hk']

/-- C7 witness: a failed submission with an attached image yields a
payload with the image field set and no document field. -/
theorem payload_single_attachment_witness :
    ¬((buildFormData "q" (some { file := { name := "scan.png" }, type := AttachKind.image })).image.isSome = true ∧
      (buildFormData "q" (some { file := { name := "scan.png" }, type := AttachKind.image })).document.isSome = true) :=
  (payload_single_attachment
    { initialState with
        query := "q"
      , attachedFile := some { file := { name := "scan.png" }, type := AttachKind.image } }
    SubmitOutcome.failure
    (buildFormData "q" (some { file := { name := "scan.png" }, type := AttachKind.image }))
    (by decide)).1

/-- The admitted branch of `handleSubmit` turns the spinner on. -/
theorem submitBegin_isLoading {s s1 : SessionState} {p : FormPayload}
    (h : submitBegin s = some (s1, p)) : s1.isLoading = true := by
  unfold submitBegin at h
  split at h
  · exact absurd h (by simp)
  · simp only [Option.some.injEq, Prod.mk.injEq] at h
    rw [← h.1]

/-- One event-handler dispatch preserves the single-flight invariant. -/
theorem singleFlight_step (u : UIState) (e : UIEvent) (h : SingleFlight u) :
    SingleFlight (stepUI u e) := by
  obtain ⟨h1, h2⟩ := h
  cases e with
  | setQueryInput t => exact ⟨h1, h2⟩
  | attachImageFile f => exact ⟨h1, h2⟩
  | attachDocFile f => exact ⟨h1, h2⟩
  | voiceResult t => exact ⟨h1, h2⟩
  | clearResolve => exact ⟨h1, h2⟩
  | submitClick =>
    by_cases hl : u.sess.isLoading = true
    · simpa [stepUI, hl] using ⟨h1, h2⟩
    · have hl' : u.sess.isLoading = false := by
        cases hb : u.sess.isLoading
        · rfl
        · exact absurd hb hl
      have h0 : u.inFlight = 0 := h2 hl'
      cases hb : submitBegin u.sess with
      | none => simpa [stepUI, hl', hb] using ⟨h1, h2⟩
      | some x =>
        obtain ⟨s1, p⟩ := x
        have hload := submitBegin_isLoading hb
        have hstep : stepUI u UIEvent.submitClick =
            { sess := s1, inFlight := u.inFlight + 1 } := by
          simp [stepUI, hl', hb]
        rw [hstep]
        refine ⟨show u.inFlight + 1 ≤ 1 by omega, fun hf => ?_⟩
        rw [show ({ sess := s1, inFlight := u.inFlight + 1 } : UIState).sess = s1 from rfl,
          hload] at hf
        exact absurd hf (by decide)
  | submitResolve o =>
    by_cases h0 : u.inFlight = 0
    · simpa [stepUI, h0] using ⟨h1, h2⟩
    · cases o with
      | success data =>
        have hstep : stepUI u (UIEvent.submitResolve (SubmitOutcome.success data)) =
            { sess := submitSuccess u.sess data, inFlight := u.inFlight - 1 } := by
          simp [stepUI, h0]
        rw [hstep]
        exact ⟨show u.inFlight - 1 ≤ 1 by omega
          , fun _ => show u.inFlight - 1 = 0 by omega⟩
      | failure =>
        have hstep : stepUI u (UIEvent.submitResolve SubmitOutcome.failure) =
            { sess := submitFailure u.sess, inFlight := u.inFlight - 1 } := by
          simp [stepUI, h0]
        rw [hstep]
        exact ⟨show u.inFlight - 1 ≤ 1 by omega
          , fun _ => show u.inFlight - 1 = 0 by omega⟩

/-- The single-flight invariant is inductive along any event trace. -/
theorem singleFlight_foldl (es : List UIEvent) :
    ∀ u : UIState, SingleFlight u → SingleFlight (es.foldl stepUI u) := by
  induction es with
  | nil => intro u h; exact h
  | cons e es ih => intro u h; exact ih (stepUI u e) (singleFlight_step u e h)

/-- C2: in every state reachable from mount by an event trace, at most one
submission is in flight, and while one is (the spinner is on) a further
activation of the submit affordance is rejected — the state is unchanged
and no second request starts. -/
theorem single_flight_guard (es : List UIEvent) :
    (runUI es).inFlight ≤ 1 ∧
    ((runUI es).sess.isLoading = true →
      stepUI (runUI es) UIEvent.submitClick = runUI es) := by
  have h := singleFlight_foldl es initUI ⟨by simp [initUI], fun _ => rfl⟩
  exact ⟨h.1, fun hl => by simp [stepUI, hl]⟩

/-- C2 witness: after typing a query and submitting, the spinner is on,
exactly one request is in flight, and clicking submit again changes
nothing. -/
theorem single_flight_guard_witness :
    (runUI [UIEvent.setQueryInput "What is diabetes?", UIEvent.submitClick]).inFlight ≤ 1 ∧
    stepUI (runUI [UIEvent.setQueryInput "What is diabetes?", UIEvent.submitClick])
        UIEvent.submitClick =
      runUI [UIEvent.setQueryInput "What is diabetes?", UIEvent.submitClick] :=
  ⟨(single_flight_guard [UIEvent.setQueryInput "What is diabetes?", UIEvent.submitClick]).1
  , (single_flight_guard [UIEvent.setQueryInput "What is diabetes?", UIEvent.submitClick]).2
      (by decide)⟩

end Atlas
